import Mathlib

/-!
Verification of the wx CLI orchestration and forecasting core.

This file gives a shallow embedding, in Lean 4, of the parts of the
`wx` package relevant to the orchestration/forecasting specification:

* `src/wx/orchestrator.py` — the fetch coordinator (`_maybe_fetch`), the
  feature-pack building handlers, region statistics and alert summarisation;
* `src/wx/forecaster.py` — `Forecaster.generate`, `_parse_response`,
  `_fallback_response` and `_enumerate_feature_fields`;
* `src/wx/openrouter_client.py` — `chat_completion` with its retry loop.

Python values that flow through feature packs and JSON payloads are embedded
as the inductive `Value`.  Network I/O, the system clock and the stdlib JSON
parser are abstracted as explicit oracle parameters (an outcome per HTTP
attempt, a `TimeEnv`, a `jsonLoads` function); everything else is translated
directly from the source.  Machine floats are modelled as rationals: the code
only ever compares, min/maxes and copies them.
-/

namespace Wx

/-- Lexicographic code-point comparison of character lists, the order Python
uses for `str` comparison and `sorted` on strings. -/
def charsLe : List Char → List Char → Bool
  | [], _ => true
  | _ :: _, [] => false
  | c :: cs, d :: ds =>
      if c.toNat < d.toNat then true
      else if d.toNat < c.toNat then false
      else charsLe cs ds

/-- String comparison by code points (Python `<=` on `str`). -/
def strLe (s t : String) : Bool :=
  charsLe s.data t.data

/-- Strict string comparison by code points (Python `<` on `str`). -/
def strLt (s t : String) : Bool :=
  strLe s t && !(s == t)

/-- Insert `x` into `acc`, keeping `x` after any element `y` with `le y x`.
Combined with a left fold this yields a stable sort, as Python's `sorted`. -/
def insort (le : α → α → Bool) (x : α) : List α → List α
  | [] => [x]
  | y :: ys => if le y x then y :: insort le x ys else x :: y :: ys

/-- Stable sort by the boolean relation `le`; models Python `sorted(l, key=...)`
(Timsort is also stable, and a stable sort's output is determined by the key
order and the input order). -/
def sortBy (le : α → α → Bool) (l : List α) : List α :=
  l.foldl (fun acc x => insort le x acc) []

/-- Model of Python `sorted(set(l))` for strings: duplicates removed, then
sorted ascending by code points. -/
def sortedSet (l : List String) : List String :=
  sortBy strLe l.dedup

/-- Python whitespace test for `str.strip` (the ASCII whitespace the code can
meet in provider responses). -/
def isPySpace (c : Char) : Bool :=
  c == ' ' || c == '\t' || c == '\n' || c == '\r'

/-- Model of Python `str.strip()`. -/
def pyStrip (s : String) : String :=
  ⟨((s.data.dropWhile isPySpace).reverse.dropWhile isPySpace).reverse⟩

/-- Character-list prefix test. -/
def startsChars : List Char → List Char → Bool
  | [], _ => true
  | _ :: _, [] => false
  | c :: cs, d :: ds => c == d && startsChars cs ds

/-- Model of Python `str.startswith`. -/
def pyStartsWith (pre s : String) : Bool :=
  startsChars pre.data s.data

/-- ASCII lowering of a character (Python `str.lower` on the ASCII range,
which is all the code applies it to: horizon codes such as `"12H"`). -/
def lowerChar (c : Char) : Char :=
  if 65 ≤ c.toNat ∧ c.toNat ≤ 90 then Char.ofNat (c.toNat + 32) else c

/-- Model of Python `str.lower` (ASCII case folding). -/
def asciiLower (s : String) : String :=
  ⟨s.data.map lowerChar⟩

/-- Model of Python `separator.join(parts)`. -/
def joinSep (sep : String) : List String → String
  | [] => ""
  | [x] => x
  | x :: y :: xs => x ++ sep ++ joinSep sep (y :: xs)

/-- Split a character list at newline characters; with `String.mk` on each
piece this models Python `str.splitlines()` for `\n`-separated text (the only
separator produced by the providers the code talks to). -/
def splitNl : List Char → List (List Char)
  | [] => [[]]
  | c :: cs =>
      if c == '\n' then [] :: splitNl cs
      else match splitNl cs with
        | [] => [[c]]
        | l :: ls => (c :: l) :: ls

/-- Model of Python `str.splitlines()` (newline-separated text). -/
def pySplitLines (s : String) : List String :=
  (splitNl s.data).map fun l => ⟨l⟩

/-- A Python value as it appears in feature packs and JSON payloads:
`None`, booleans, numbers (exact rationals stand in for ints and floats —
the code only compares and copies them), strings, lists and string-keyed
dicts (insertion-ordered association lists, as Python dicts are). -/
inductive Value : Type where
  | null : Value
  | bool (b : Bool) : Value
  | num (q : ℚ) : Value
  | str (s : String) : Value
  | list (xs : List Value) : Value
  | dict (xs : List (String × Value)) : Value

/-- Python truthiness of a `Value` (`if value:`). -/
def Value.truthy : Value → Bool
  | .null => false
  | .bool b => b
  | .num q => q != 0
  | .str s => s != ""
  | .list xs => !xs.isEmpty
  | .dict xs => !xs.isEmpty

/-- The test `value in (None, [], {})` used by `_maybe_fetch` and
`_enumerate_feature_fields`: equality with `None`, the empty list or the
empty dict. -/
def Value.isEmptyish : Value → Bool
  | .null => true
  | .list [] => true
  | .dict [] => true
  | _ => false

/-- Model of `dict.get(key)` on a dict-shaped `Value` (and `None` otherwise,
matching `(x or {}).get(key)` for the falsy case). -/
def Value.getKey : Value → String → Option Value
  | .dict fields, k => fields.lookup k
  | _, _ => none

/-- JSON string escaping for the serializer model (quote and backslash; the
fixed texts the code serializes contain nothing else needing escapes). -/
def escChar (c : Char) : List Char :=
  if c == '"' ∨ c == '\\' then ['\\', c] else [c]

/-- Quote a string as a JSON literal. -/
def jsonQuote (s : String) : String :=
  "\"" ++ ⟨s.data.flatMap escChar⟩ ++ "\""

mutual

/-- Deterministic serializer standing in for stdlib `json.dumps(...,
ensure_ascii=True)`; only its determinism matters to the embedded code
(it feeds `raw_text` fields that no control flow inspects). -/
def jsonDumps : Value → String
  | .null => "null"
  | .bool b => if b then "true" else "false"
  | .num q => toString q
  | .str s => jsonQuote s
  | .list xs => "[" ++ joinSep ", " (jsonDumpsList xs) ++ "]"
  | .dict xs => "\x7b" ++ joinSep ", " (jsonDumpsPairs xs) ++ "\x7d"

/-- Serialize each element of a list. -/
def jsonDumpsList : List Value → List String
  | [] => []
  | v :: vs => jsonDumps v :: jsonDumpsList vs

/-- Serialize each key/value pair of a dict. -/
def jsonDumpsPairs : List (String × Value) → List String
  | [] => []
  | (k, v) :: vs => (jsonQuote k ++ ": " ++ jsonDumps v) :: jsonDumpsPairs vs

end

/-! ### Fetch coordinator (src/wx/orchestrator.py, `Orchestrator._maybe_fetch`) -/

/-- `FetchResult` from src/wx/fetchers.py: diagnostic metadata for one fetch. -/
structure FetchResult where
  name : String
  elapsed : ℚ
  succeeded : Bool
  detail : Option String
deriving DecidableEq, Repr

/-- One fetch task as the coordinator sees it: the adapter name, the elapsed
wall-clock time of the call (abstract — the code measures it with
`time.perf_counter`), and the thunk's outcome — a returned `Value` or a
raised exception carrying its `str(exc)` text. -/
structure FetchTask where
  name : String
  elapsed : ℚ
  thunk : Except String Value

/-- Embeds `Orchestrator._maybe_fetch`: run one thunk, catch any exception,
record a timing entry and append exactly one `FetchResult` diagnostic.
`succeeded` is `result not in (None, [], {})`; a raised exception yields a
`None` result and `detail = str(exc)`. -/
def maybe_fetch (name : String) (elapsed : ℚ) (thunk : Except String Value)
    (timings : List (String × ℚ)) (fetchers : List FetchResult) :
    Value × List (String × ℚ) × List FetchResult :=
  match thunk with
  | .ok result =>
      (result, timings ++ [(name, elapsed)],
        fetchers ++ [⟨name, elapsed, !result.isEmptyish, none⟩])
  | .error exc =>
      (Value.null, timings ++ [(name, elapsed)],
        fetchers ++ [⟨name, elapsed, false, some exc⟩])

/-- The coordinator loop the handlers implement with repeated `_maybe_fetch`
calls (the spec's `fetch_all`): each task is run through `maybe_fetch` in
turn; a truthy result is recorded in the result map under the task's name,
and every task contributes its diagnostic entry. -/
def fetch_all : List FetchTask → List (String × Value) × List FetchResult
  | [] => ([], [])
  | t :: ts =>
      let r := maybe_fetch t.name t.elapsed t.thunk [] []
      let rest := fetch_all ts
      ((if r.1.truthy then [(t.name, r.1)] else []) ++ rest.1,
        r.2.2 ++ rest.2)

/-! ### Region statistics (src/wx/orchestrator.py, `_compute_region_stats`) -/

/-- `Observation` from src/wx/fetchers.py. -/
structure Observation where
  lat : ℚ
  lon : ℚ
  temp : Option ℚ
  feels_like : Option ℚ
  wind : Option ℚ
  gust : Option ℚ
  precip_prob : Option ℚ
  cloud_cover : Option ℚ
deriving DecidableEq, Repr

/-- `RegionStats` from src/wx/orchestrator.py. -/
structure RegionStats where
  tmin : Option ℚ
  tmax : Option ℚ
  pop_max : Option ℚ
  wind_max : Option ℚ
  gust_max : Option ℚ
deriving DecidableEq, Repr

/-- Embeds `Orchestrator._compute_region_stats`: collect the non-`None`
values of each metric and take `min`/`max` when the collection is non-empty
(`List.min?`/`List.max?` are exactly `min(xs) if xs else None`). -/
def compute_region_stats (observations : List Observation) : RegionStats :=
  if observations.isEmpty then ⟨none, none, none, none, none⟩
  else
    let temps := observations.filterMap (·.temp)
    let precip_probs := observations.filterMap (·.precip_prob)
    let winds := observations.filterMap (·.wind)
    let gusts := observations.filterMap (·.gust)
    ⟨temps.min?, temps.max?, precip_probs.max?, winds.max?, gusts.max?⟩

/-! ### Alert summarisation (src/wx/orchestrator.py, `_summarize_alerts`) -/

/-- `Alert` from src/wx/fetchers.py. -/
structure Alert where
  event : String
  severity : String
  areas : List String
  expires_iso : Option String
deriving DecidableEq, Repr

/-- One summarised entry `\x7b"event", "count", "areas"\x7d` of
`_summarize_alerts`. -/
structure AlertGroup where
  event : String
  count : Nat
  areas : List String
deriving DecidableEq, Repr

/-- One step of the grouping loop: bump the count and extend the area pool
(with `alert.areas[:2]`) of the alert's event, appending a fresh entry when
the event is new — the insertion-ordered dict of the source. -/
def insertAlertGroup (a : Alert) :
    List (String × Nat × List String) → List (String × Nat × List String)
  | [] => [(a.event, 1, a.areas.take 2)]
  | (e, c, ar) :: rest =>
      if e = a.event then (e, c + 1, ar ++ a.areas.take 2) :: rest
      else (e, c, ar) :: insertAlertGroup a rest

/-- The grouping pass of `_summarize_alerts`. -/
def group_alerts (alerts : List Alert) : List (String × Nat × List String) :=
  alerts.foldl (fun groups a => insertAlertGroup a groups) []

/-- Embeds `Orchestrator._summarize_alerts`: group by event, format each
group with `sorted(list(set(areas)))[:5]`, then order by descending count
(Python's stable `sorted(..., reverse=True)`) and keep the top 5 events. -/
def summarize_alerts (alerts : List Alert) : List AlertGroup :=
  if alerts.isEmpty then []
  else
    let result := (group_alerts alerts).map fun g =>
      AlertGroup.mk g.1 g.2.1 ((sortedSet g.2.2).take 5)
    (sortBy (fun a b => b.count ≤ a.count) result).take 5

/-- The area pool an event accumulates in `_summarize_alerts`: the first two
areas (`alert.areas[:2]`) of each alert with that exact event name, in input
order. -/
def areas_pool (alerts : List Alert) (e : String) : List String :=
  (alerts.filter fun a => a.event == e).flatMap fun a => a.areas.take 2

/-! ### OpenRouter client (src/wx/openrouter_client.py) -/

/-- `RETRYABLE_STATUS_CODES` from src/wx/openrouter_client.py. -/
def RETRYABLE_STATUS_CODES : List Nat := [429, 500, 502, 503, 504]

/-- `OpenRouterError`: the message and optional HTTP status it carries. -/
structure OpenRouterError where
  message : String
  status_code : Option Nat
deriving DecidableEq, Repr

/-- `OpenRouterConfig` (timeout/retries/backoff_factor have dataclass
defaults 30.0 / 3 / 0.75; `_build_openrouter_config` never overrides them). -/
structure OpenRouterConfig where
  api_key : String
  base_url : String
  model : String
  temperature : ℚ
  max_tokens : Nat
  timeout : ℚ
  retries : Nat
  backoff_factor : ℚ

/-- What one `httpx.post` attempt can produce, abstracting the network:
a raised `HTTPStatusError` (non-2xx status), a raised timeout/transport
error, a 2xx response whose body fails JSON decoding, or a 2xx response
with a decoded JSON body and its headers. -/
inductive AttemptOutcome : Type where
  | httpError (status : Nat)
  | transportError
  | badJson (status : Nat)
  | body (status : Nat) (data : Value) (headers : List (String × String))

/-- `OpenRouterResponse` from src/wx/openrouter_client.py. -/
structure OpenRouterResponse where
  text : String
  model : String
  raw : Value
  usage : Option Value
  headers : List (String × String)
  attempts : Nat

/-- Embeds `_extract_first_message`: pull `choices[0].message.content`,
either a non-empty stripped string or the concatenation of the `text`
fields of a list of mapping parts (a part's non-string `text` contributes
nothing reachable: such a payload would fault the join in Python and no
claim exercises it). -/
def extract_first_message (data : Value) : Option String :=
  match data.getKey "choices" with
  | some (.list (c :: _)) =>
      match c.getKey "message" with
      | some (.dict mf) =>
          match mf.lookup "content" with
          | some (.str s) =>
              let t := pyStrip s
              if t = "" then none else some t
          | some (.list parts) =>
              let texts := parts.filterMap fun p =>
                match p with
                | .dict pf =>
                    some (match pf.lookup "text" with
                      | some (.str t) => t
                      | _ => "")
                | _ => none
              let combined := pyStrip (joinSep "" texts)
              if combined = "" then none else some combined
          | _ => none
      | _ => none
  | _ => none

/-- Python `data.get("model", config.model)` rendered to the string the
response's `model` field holds. -/
def modelField (data : Value) (default : String) : String :=
  match data.getKey "model" with
  | some (.str m) => m
  | some v => jsonDumps v
  | none => default

/-- Python `data.get("usage")`: `None` both when the key is missing and when
its value is JSON null. -/
def usageField (data : Value) : Option Value :=
  match data.getKey "usage" with
  | some .null => none
  | some v => some v
  | none => none

/-- The retry loop body of `chat_completion` (`for attempt in range(1,
config.retries + 1)`), as a recursion on the attempt index.  The second
component records the `time.sleep(backoff)` calls made, in order.  On a
retryable status or a transport error or invalid JSON before the final
attempt the loop sleeps and doubles the backoff; otherwise it raises the
corresponding `OpenRouterError`.  A body with no extractable content raises
without retrying.  The guard arm past the final attempt is the source's
unreachable `"exhausted retries"` raise. -/
def run_attempts (cfg : OpenRouterConfig) (outcomes : Nat → AttemptOutcome)
    (attempt : Nat) (backoff : ℚ) (lastStatus : Option Nat) :
    Except OpenRouterError OpenRouterResponse × List ℚ :=
  if cfg.retries < attempt then
    (.error ⟨"OpenRouter request exhausted retries", lastStatus⟩, [])
  else
    match outcomes attempt with
    | .httpError status =>
        if status ∈ RETRYABLE_STATUS_CODES ∧ attempt < cfg.retries then
          let rest := run_attempts cfg outcomes (attempt + 1) (backoff * 2) (some status)
          (rest.1, backoff :: rest.2)
        else
          (.error ⟨"OpenRouter HTTP " ++ toString status, some status⟩, [])
    | .transportError =>
        if attempt < cfg.retries then
          let rest := run_attempts cfg outcomes (attempt + 1) (backoff * 2) lastStatus
          (rest.1, backoff :: rest.2)
        else
          (.error ⟨"OpenRouter request failed", none⟩, [])
    | .badJson status =>
        if attempt < cfg.retries then
          let rest := run_attempts cfg outcomes (attempt + 1) (backoff * 2) lastStatus
          (rest.1, backoff :: rest.2)
        else
          (.error ⟨"OpenRouter returned invalid JSON", some status⟩, [])
    | .body status data headers =>
        match extract_first_message data with
        | none =>
            (.error ⟨"OpenRouter response missing content", some status⟩, [])
        | some text =>
            (.ok ⟨text, modelField data cfg.model, data, usageField data,
              headers, attempt⟩, [])
termination_by cfg.retries + 1 - attempt
decreasing_by all_goals omega

/-- Embeds `chat_completion`: the messages build the HTTP payload (absorbed
into the per-attempt outcome oracle); the loop starts at attempt 1 with
`backoff = config.backoff_factor`. -/
def chat_completion (_messages : List (String × String)) (cfg : OpenRouterConfig)
    (outcomes : Nat → AttemptOutcome) :
    Except OpenRouterError OpenRouterResponse × List ℚ :=
  run_attempts cfg outcomes 1 cfg.backoff_factor none

/-! ### Forecaster (src/wx/forecaster.py) -/

/-- A raised Python exception as the forecaster boundary sees it: class name
(for `f"fallback:\x7bexc.__class__.__name__\x7d"`) and `str(exc)` text. -/
structure Exc where
  className : String
  message : String
deriving DecidableEq, Repr

/-- `ForecasterResponse` from src/wx/forecaster.py.  `sections`,
`confidence` and `bottom_line` are `Value`s because `_parse_response` stores
whatever truthy JSON value the provider returned in them. -/
structure ForecasterResponse where
  sections : Value
  confidence : Value
  used_feature_fields : List Value
  bottom_line : Value
  raw_text : String
  provider : String
  prompt_summary : String
  meta : Option Value

/-- `DEFAULT_OPENROUTER_MODELS` from src/wx/config.py. -/
def DEFAULT_OPENROUTER_MODELS : List String := ["openrouter/auto"]

/-- `DEFAULT_OPENROUTER_BASE_URL` from src/wx/config.py. -/
def DEFAULT_OPENROUTER_BASE_URL : String := "https://openrouter.ai/api/v1"

/-- The slice of `Settings` (src/wx/config.py) the forecaster reads.
Credential strings use `""` for Python's unset/`None` (both falsy). -/
structure ForecasterSettings where
  offline : Bool
  style : String
  persona : String
  openrouter_api_key : String
  openrouter_models : List String
  openrouter_base_url : String
  ai_temperature : ℚ
  ai_max_tokens : Nat
  gemini_api_key : String
  gemini_model : String

/-- The payload dict `Forecaster.generate` builds and hands to
`_invoke_provider` / `_fallback_response`. -/
structure Payload where
  intent : String
  style : String
  persona : String
  verbose : Bool
  explain_mode : Bool
  feature_pack : List (String × Value)
  query : String

/-- One iteration of the key-walking loop of `_enumerate_feature_fields`:
a value equal to `None`/`[]`/`\x7b\x7d` contributes nothing, the `"units"`
key contributes `"units"`, a dict-valued section contributes `key.inner`
for each inner key, and any other value contributes the bare key. -/
def collect_entry (key : String) (value : Value) : List String :=
  if value.isEmptyish then []
  else if key = "units" then ["units"]
  else match value with
    | .dict inner => inner.map fun kv => key ++ "." ++ kv.1
    | _ => [key]

/-- The names accumulated by the loop of `_enumerate_feature_fields`, in
iteration order. -/
def collect_feature_fields (fp : List (String × Value)) : List String :=
  fp.flatMap fun kv => collect_entry kv.1 kv.2

/-- Embeds `Forecaster._enumerate_feature_fields`: the collected names,
deduplicated and sorted (`sorted(set(keys))`). -/
def enumerate_feature_fields (feature_pack : List (String × Value)) : List String :=
  sortedSet (collect_feature_fields feature_pack)

/-- The fixed sentence `_fallback_response` always uses as `bottom_line`. -/
def FALLBACK_BOTTOM_LINE : String :=
  "Bottom line: wx requires an AI provider configured to deliver a full forecast."

/-- Embeds `Forecaster._fallback_response`. -/
def fallback_response (payload : Payload) (provider prompt_summary : String)
    (raw_text : Option String) (meta : Option Value) : ForecasterResponse :=
  let used_fields := enumerate_feature_fields payload.feature_pack
  let summary : List Value :=
    if payload.explain_mode then
      [Value.str "Explain mode: describing which Feature Pack inputs were available and how they would influence a forecast."]
    else
      [Value.str "wx is operating with limited connectivity and cannot reach AI services.",
       Value.str "Responding with a conservative qualitative outlook based on provided context only."]
  let sections : Value := Value.dict
    [("summary", Value.list summary),
     ("timeline", Value.list [Value.str "No timeline available without model output."]),
     ("risk_cards", Value.list [Value.dict
        [("hazard", Value.str "General"),
         ("level", Value.str "Low"),
         ("drivers", Value.list [Value.str "Insufficient data; AI model unavailable"]),
         ("confidence", Value.str "Low confidence; qualitative placeholder.")]]),
     ("confidence", Value.str "Confidence limited by offline mode or missing API keys."),
     ("actions", Value.list
        [Value.str "Monitor trusted weather sources and official alerts.",
         Value.str "Re-run wx with API keys configured for a richer briefing."]),
     ("assumptions", Value.list
        [Value.str ("Feature Pack fields used: " ++
          (if used_fields.isEmpty then "none supplied" else joinSep ", " used_fields))])]
  ⟨sections,
   Value.dict [("value", Value.num 25), ("rationale", Value.str "Offline fallback.")],
   used_fields.map Value.str,
   Value.str FALLBACK_BOTTOM_LINE,
   raw_text.getD (jsonDumps sections),
   provider,
   prompt_summary,
   meta⟩

/-- Embeds `Forecaster._strip_fence`: drop a leading and a trailing
code-fence line. -/
def strip_fence (text : String) : String :=
  let lines := pySplitLines text
  let lines := if pyStartsWith "```" (lines.headD "") then lines.tail else lines
  let lines :=
    match lines.getLast? with
    | some last => if pyStartsWith "```" last then lines.dropLast else lines
    | none => lines
  joinSep "\n" lines

/-- The cleaning `_parse_response` applies before `json.loads`: strip
whitespace, then drop code fences when present. -/
def clean_response_text (raw_text : String) : String :=
  let cleaned := pyStrip raw_text
  if pyStartsWith "```" cleaned then strip_fence cleaned else cleaned

/-- Python `data.get(key) or default` on a looked-up dict entry. -/
def or_default (v : Option Value) (d : Value) : Value :=
  match v with
  | some x => if x.truthy then x else d
  | none => d

/-- The payload dict literal `_parse_response` hands to `_fallback_response`
on a JSON decode failure (`\x7b"feature_pack": \x7b\x7d, "intent":
"parse_error"\x7d`): its `.get("feature_pack")` is empty and its
`.get("explain_mode")` is `None`, hence falsy. -/
def parse_error_payload : Payload :=
  ⟨"parse_error", "", "", false, false, [], ""⟩

/-- Embeds `Forecaster._parse_response`.  `jsonLoads` abstracts stdlib
`json.loads`, returning `none` on a decode error.  A decoded non-dict makes
`data.get` raise `AttributeError` in Python, modelled as the `Except`
error (the caller `generate` catches it). -/
def parse_response (jsonLoads : String → Option Value) (raw_text : String)
    (prompt_summary provider : String) (meta : Option Value) :
    Except Exc ForecasterResponse :=
  match jsonLoads (clean_response_text raw_text) with
  | none =>
      .ok (fallback_response parse_error_payload "fallback:unparseable"
        prompt_summary (some raw_text) meta)
  | some (.dict fields) =>
      let sections := or_default (fields.lookup "sections") (Value.dict [])
      let confidence := or_default (fields.lookup "confidence")
        (Value.dict [("value", Value.num 30),
          ("rationale", Value.str "Model confidence not supplied.")])
      let used_fields := or_default (fields.lookup "used_feature_fields") (Value.list [])
      let bottom_line := or_default (fields.lookup "bottom_line")
        (Value.str "No bottom line provided.")
      .ok ⟨sections, confidence,
        (match used_fields with | .list xs => xs | _ => []),
        bottom_line, raw_text, provider, prompt_summary, meta⟩
  | some _ =>
      .error ⟨"AttributeError", "object has no attribute get"⟩

/-- Embeds `Forecaster._build_openrouter_config`: `None` without an API key,
otherwise the first configured (or default) model with the dataclass
defaults `timeout=30`, `retries=3`, `backoff_factor=0.75`. -/
def build_openrouter_config (s : ForecasterSettings) : Option OpenRouterConfig :=
  if s.openrouter_api_key = "" then none
  else
    let models := if s.openrouter_models.isEmpty then DEFAULT_OPENROUTER_MODELS
      else s.openrouter_models
    let base_url := if s.openrouter_base_url = "" then DEFAULT_OPENROUTER_BASE_URL
      else s.openrouter_base_url
    some ⟨s.openrouter_api_key, base_url, models.headD "", s.ai_temperature,
      s.ai_max_tokens, 30, 3, 3 / 4⟩

/-- The `RuntimeError` `_invoke_provider` raises after all providers failed:
the joined error list, or `"no-provider-configured"` when empty. -/
def final_error (errors : List String) : Exc :=
  ⟨"RuntimeError", if errors.isEmpty then "no-provider-configured"
    else joinSep "; " errors⟩

/-- The Gemini leg of `_invoke_provider`; `gemini` abstracts `_call_gemini`
(`.error` = a raised `RuntimeError`'s text, `.ok` = the stripped response
text or `None`). -/
def invoke_gemini (errors : List String) (gemini_key : Bool)
    (gemini : Except String (Option String)) (gemini_model : String) :
    Except Exc (String × String × Option Value) :=
  if gemini_key then
    match gemini with
    | .ok (some t) =>
        if t ≠ "" then
          .ok (t, "gemini", some (Value.dict [("model", Value.str gemini_model)]))
        else .error (final_error (errors ++ ["gemini:no-response"]))
    | .ok none => .error (final_error (errors ++ ["gemini:no-response"]))
    | .error m => .error (final_error (errors ++ ["gemini:" ++ m]))
  else .error (final_error errors)

/-- The meta dict `_invoke_provider` builds from an OpenRouter response. -/
def openrouter_meta (r : OpenRouterResponse) : Value :=
  Value.dict
    [("model", Value.str r.model),
     ("usage", match r.usage with | some v => v | none => Value.null),
     ("attempts", Value.num r.attempts),
     ("headers", Value.dict (r.headers.map fun kv => (kv.1, Value.str kv.2)))]

/-- Embeds `Forecaster._invoke_provider`: try OpenRouter when configured,
then Gemini when a key is present, else raise the accumulated
`RuntimeError`.  The prompt/messages construction is absorbed into the
attempt oracle. -/
def invoke_provider (cfg : Option OpenRouterConfig) (outcomes : Nat → AttemptOutcome)
    (gemini_key : Bool) (gemini : Except String (Option String))
    (gemini_model : String) : Except Exc (String × String × Option Value) :=
  match cfg with
  | some c =>
      match (chat_completion [] c outcomes).1 with
      | .ok r => .ok (r.text, "openrouter:" ++ r.model, some (openrouter_meta r))
      | .error e => invoke_gemini ["openrouter:" ++ e.message] gemini_key gemini gemini_model
  | none => invoke_gemini [] gemini_key gemini gemini_model

/-- Embeds `Forecaster._compose_prompt_summary`. -/
def compose_prompt_summary (query intent : String) (verbose explain : Bool) : String :=
  joinSep " | " ([intent, query] ++ (if verbose then ["verbose"] else []) ++
    (if explain then ["explain"] else []))

/-- Embeds `Forecaster.generate`.  Offline mode short-circuits to the
deterministic fallback; otherwise any exception out of `_invoke_provider`
or `_parse_response` is caught and turned into a
`fallback:\x7bclass-name\x7d` response — the function is total, it never
raises. -/
def generate (s : ForecasterSettings) (jsonLoads : String → Option Value)
    (outcomes : Nat → AttemptOutcome) (gemini : Except String (Option String))
    (query : String) (feature_pack : List (String × Value)) (intent : String)
    (verbose explain : Bool) : ForecasterResponse :=
  let prompt_summary := compose_prompt_summary query intent verbose explain
  let payload : Payload :=
    ⟨intent, s.style, s.persona, verbose, explain, feature_pack, query⟩
  if s.offline then
    fallback_response payload "offline" prompt_summary none none
  else
    match invoke_provider (build_openrouter_config s) outcomes
        (s.gemini_api_key ≠ "") gemini s.gemini_model with
    | .error exc =>
        fallback_response payload ("fallback:" ++ exc.className) prompt_summary
          (some exc.message) (some (Value.dict [("error", Value.str exc.message)]))
    | .ok (raw, provider, meta) =>
        match parse_response jsonLoads raw prompt_summary provider meta with
        | .ok resp => resp
        | .error exc =>
            fallback_response payload ("fallback:" ++ exc.className) prompt_summary
              (some exc.message) (some (Value.dict [("error", Value.str exc.message)]))

/-! ### Orchestrator feature-pack builders (src/wx/orchestrator.py) -/

/-- Embeds `_unit_pack`. -/
def unit_pack (units : String) : Value :=
  if units = "metric" then
    Value.dict [("temp", Value.str "C"), ("wind", Value.str "mps"), ("precip", Value.str "mm")]
  else
    Value.dict [("temp", Value.str "F"), ("wind", Value.str "mph"), ("precip", Value.str "in")]

/-- Embeds `Orchestrator._base_feature_pack`. -/
def base_feature_pack (units : String) : List (String × Value) :=
  [("units", unit_pack units)]

/-- Embeds `Orchestrator._parse_horizon`. -/
def parse_horizon (horizon : String) : Nat :=
  let l := asciiLower horizon
  if l = "6h" then 6
  else if l = "12h" then 12
  else if l = "24h" then 24
  else if l = "3d" then 72
  else 24

/-- The clock and timezone machinery `_build_window` uses, abstracted:
instants are rationals (seconds since the epoch), `parse_time` stands for
`_safe_parse_time` (dateutil parse normalised to UTC, `None` on failure),
`iso_utc` for `datetime.isoformat` in UTC, and `zone_info tz` for a
successful `ZoneInfo(tz)` lookup giving the local `isoformat` (or `none`
when the lookup raises and the `except` swallows it). -/
structure TimeEnv where
  now_utc : ℚ
  parse_time : String → Option ℚ
  iso_utc : ℚ → String
  zone_info : String → Option (ℚ → String)

/-- Embeds `Orchestrator._build_window`.  The start defaults to now and is
replaced by a successfully parsed `when_text`; the window dict always holds
`start_iso`, `end_iso` and `horizon`, and gains the three local-time keys
only when the place carries a truthy string timezone that `ZoneInfo`
accepts.  (A truthy non-string `tz` would make `ZoneInfo` raise, which the
source catches and ignores.) -/
def build_window (tenv : TimeEnv) (place_info : Value) (when_text : String)
    (horizon : String) : Option Value :=
  let horizon_hours := parse_horizon horizon
  let tz_name : Option Value :=
    match place_info with
    | .dict fields => fields.lookup "tz"
    | _ => none
  let start :=
    if when_text ≠ "" then
      match tenv.parse_time when_text with
      | some t => t
      | none => tenv.now_utc
    else tenv.now_utc
  let endT := start + horizon_hours * 3600
  let base :=
    [("start_iso", Value.str (tenv.iso_utc start)),
     ("end_iso", Value.str (tenv.iso_utc endT)),
     ("horizon", Value.str (toString horizon_hours ++ "h"))]
  let localParts :=
    match tz_name with
    | some tzv =>
        if tzv.truthy then
          match tzv with
          | .str tz =>
              match tenv.zone_info tz with
              | some local_iso =>
                  [("start_local", Value.str (local_iso start)),
                   ("end_local", Value.str (local_iso endT)),
                   ("timezone", Value.str tz)]
              | none => []
          | _ => []
        else []
    | none => []
  some (Value.dict (base ++ localParts))

/-- Python `isinstance(x, (int, float))` (bools are ints in Python). -/
def isNumberLike : Value → Bool
  | .num _ => true
  | .bool _ => true
  | _ => false

/-- The handlers' guard `isinstance(lat, (int, float)) and isinstance(lon,
(int, float))` on `place_info.get("lat") / .get("lon")`. -/
def hasNumericLatLon (place_info : Value) : Bool :=
  match place_info.getKey "lat", place_info.getKey "lon" with
  | some lat, some lon => isNumberLike lat && isNumberLike lon
  | _, _ => false

/-- The adapter outcomes and elapsed times a handler's `_maybe_fetch` calls
can see (the thunk outcomes of `get_point_context`, `get_quick_obs`,
`get_quick_profile`, `get_quick_alerts`). -/
structure FetchEnv where
  point_context : Except String Value
  quick_obs : Except String Value
  quick_profile : Except String Value
  quick_alerts : Except String Value
  t_point : ℚ
  t_obs : ℚ
  t_profile : ℚ
  t_alerts : ℚ

/-- The feature pack `Orchestrator.handle_question` builds. -/
def handle_question_pack (units : String) : List (String × Value) :=
  base_feature_pack units

/-- The feature pack `Orchestrator.handle_forecast` builds (`when_text` and
`focus` use `""` for Python `None`; both are tested for truthiness). -/
def handle_forecast_pack (units : String) (trust_tools : Bool) (env : FetchEnv)
    (tenv : TimeEnv) (when_text horizon focus : String) (verbose : Bool) :
    List (String × Value) :=
  let fp0 := base_feature_pack units
  let place_info := (maybe_fetch "point_context" env.t_point env.point_context [] []).1
  let fp1 := if place_info.truthy then fp0 ++ [("place", place_info)] else fp0
  let fp2 :=
    match build_window tenv place_info when_text horizon with
    | some w => if w.truthy then fp1 ++ [("window", w)] else fp1
    | none => fp1
  let fp3 :=
    if place_info.truthy && (hasNumericLatLon place_info && trust_tools) then
      let obs := (maybe_fetch "quick_obs" env.t_obs env.quick_obs [] []).1
      let fpA := if obs.truthy then fp2 ++ [("obs_quick", obs)] else fp2
      let profile := (maybe_fetch "quick_profile" env.t_profile env.quick_profile [] []).1
      let fpB := if profile.truthy then fpA ++ [("profile_quick", profile)] else fpA
      let alerts := (maybe_fetch "quick_alerts" env.t_alerts env.quick_alerts [] []).1
      if alerts.truthy then fpB ++ [("alerts_quick", alerts)] else fpB
    else fp2
  let constraints : List Value :=
    (if focus ≠ "" then [Value.str ("focus:" ++ focus)] else []) ++
    (if verbose then [Value.str "verbose"] else [])
  let user_context := Value.dict
    ([("use_case", Value.str "forecast")] ++
      (if constraints.isEmpty then [] else [("constraints", Value.list constraints)]))
  fp3 ++ [("user_context", user_context)]

/-- The feature pack `Orchestrator.handle_risk` builds. -/
def handle_risk_pack (units : String) (trust_tools : Bool) (env : FetchEnv)
    (hazards : List String) : List (String × Value) :=
  let fp0 := base_feature_pack units
  let place_info := (maybe_fetch "point_context" env.t_point env.point_context [] []).1
  let fp1 := if place_info.truthy then fp0 ++ [("place", place_info)] else fp0
  let fp2 :=
    if place_info.truthy && trust_tools && hasNumericLatLon place_info then
      let alerts := (maybe_fetch "quick_alerts" env.t_alerts env.quick_alerts [] []).1
      if alerts.truthy then fp1 ++ [("alerts_quick", alerts)] else fp1
    else fp1
  if hazards.isEmpty then fp2
  else
    fp2 ++ [("user_context", Value.dict
      [("constraints", Value.list [Value.str ("hazards:" ++ joinSep "," hazards)])])]

/-- The feature pack `Orchestrator.handle_alerts` builds (no trust-tools
gate on the alert fetch; a falsy fetch result is replaced by `[]`, which
the truthiness test then drops). -/
def handle_alerts_pack (units : String) (env : FetchEnv) : List (String × Value) :=
  let fp0 := base_feature_pack units
  let place_info := (maybe_fetch "point_context" env.t_point env.point_context [] []).1
  let fp1 := if place_info.truthy then fp0 ++ [("place", place_info)] else fp0
  let alerts :=
    if place_info.truthy && hasNumericLatLon place_info then
      let a := (maybe_fetch "quick_alerts" env.t_alerts env.quick_alerts [] []).1
      if a.truthy then a else Value.list []
    else Value.list []
  if alerts.truthy then fp1 ++ [("alerts_quick", alerts)] else fp1

/-- The feature pack `Orchestrator.handle_story` builds. -/
def handle_story_pack (units : String) (trust_tools : Bool) (env : FetchEnv)
    (tenv : TimeEnv) (when_text horizon : String) : List (String × Value) :=
  let fp0 := base_feature_pack units
  let place_info := (maybe_fetch "point_context" env.t_point env.point_context [] []).1
  let fp1 := if place_info.truthy then fp0 ++ [("place", place_info)] else fp0
  let fp2 :=
    match build_window tenv place_info when_text horizon with
    | some w => if w.truthy then fp1 ++ [("window", w)] else fp1
    | none => fp1
  if place_info.truthy && trust_tools && hasNumericLatLon place_info then
    let obs := (maybe_fetch "quick_obs" env.t_obs env.quick_obs [] []).1
    let fpA := if obs.truthy then fp2 ++ [("obs_quick", obs)] else fp2
    let profile := (maybe_fetch "quick_profile" env.t_profile env.quick_profile [] []).1
    let fpB := if profile.truthy then fpA ++ [("profile_quick", profile)] else fpA
    let alerts := (maybe_fetch "quick_alerts" env.t_alerts env.quick_alerts [] []).1
    if alerts.truthy then fpB ++ [("alerts_quick", alerts)] else fpB
  else fp2

/-! ## Supporting lemmas -/

theorem insort_perm (le : α → α → Bool) (x : α) (l : List α) :
    (insort le x l).Perm (x :: l) := by
  induction l with
  | nil => simp [insort]
  | cons y ys ih =>
      simp only [insort]
      split
      · exact (ih.cons y).trans (List.Perm.swap x y ys)
      · exact List.Perm.refl _

theorem foldl_insort_perm (le : α → α → Bool) (l acc : List α) :
    (l.foldl (fun acc x => insort le x acc) acc).Perm (acc ++ l) := by
  induction l generalizing acc with
  | nil => simp
  | cons x xs ih =>
      simp only [List.foldl_cons]
      refine (ih (insort le x acc)).trans ?_
      refine (List.Perm.append_right xs (insort_perm le x acc)).trans ?_
      exact List.perm_middle.symm

theorem sortBy_perm (le : α → α → Bool) (l : List α) : (sortBy le l).Perm l := by
  simpa using foldl_insort_perm le l []

theorem mem_sortBy (le : α → α → Bool) (l : List α) (a : α) :
    a ∈ sortBy le l ↔ a ∈ l :=
  (sortBy_perm le l).mem_iff

theorem insort_pairwise (le : α → α → Bool)
    (htrans : ∀ a b c, le a b = true → le b c = true → le a c = true)
    (htot : ∀ a b, le a b = true ∨ le b a = true)
    (x : α) (l : List α) (hl : l.Pairwise (fun a b => le a b = true)) :
    (insort le x l).Pairwise (fun a b => le a b = true) := by
  induction l with
  | nil => simp [insort]
  | cons y ys ih =>
      rcases List.pairwise_cons.mp hl with ⟨hy, hys⟩
      simp only [insort]
      by_cases h : le y x = true
      · rw [if_pos h]
        refine List.pairwise_cons.mpr ⟨?_, ih hys⟩
        intro z hz
        rcases List.mem_cons.mp ((insort_perm le x ys).mem_iff.mp hz) with rfl | hz2
        · exact h
        · exact hy z hz2
      · rw [if_neg h]
        have hxy : le x y = true := (htot x y).resolve_right fun hc => h hc
        refine List.pairwise_cons.mpr ⟨?_, hl⟩
        intro z hz
        rcases List.mem_cons.mp hz with rfl | hz'
        · exact hxy
        · exact htrans x y z hxy (hy z hz')

theorem foldl_insort_pairwise (le : α → α → Bool)
    (htrans : ∀ a b c, le a b = true → le b c = true → le a c = true)
    (htot : ∀ a b, le a b = true ∨ le b a = true)
    (l acc : List α) (hacc : acc.Pairwise (fun a b => le a b = true)) :
    (l.foldl (fun acc x => insort le x acc) acc).Pairwise
      (fun a b => le a b = true) := by
  induction l generalizing acc with
  | nil => exact hacc
  | cons x xs ih =>
      exact ih (insort le x acc) (insort_pairwise le htrans htot x acc hacc)

theorem sortBy_pairwise (le : α → α → Bool)
    (htrans : ∀ a b c, le a b = true → le b c = true → le a c = true)
    (htot : ∀ a b, le a b = true ∨ le b a = true) (l : List α) :
    (sortBy le l).Pairwise (fun a b => le a b = true) :=
  foldl_insort_pairwise le htrans htot l [] List.Pairwise.nil

theorem charsLe_total (a b : List Char) : charsLe a b = true ∨ charsLe b a = true := by
  induction a generalizing b with
  | nil => left; rfl
  | cons c cs ih =>
      cases b with
      | nil => right; rfl
      | cons d ds =>
          simp only [charsLe]
          rcases Nat.lt_trichotomy c.toNat d.toNat with h | h | h
          · left; simp [h]
          · have h1 : ¬c.toNat < d.toNat := by omega
            have h2 : ¬d.toNat < c.toNat := by omega
            rcases ih ds with hcd | hcd
            · left; simp [h1, h2, hcd]
            · right; simp [h1, h2, hcd, h.symm]
          · right; simp [h]

theorem charsLe_trans (a b c : List Char) (hab : charsLe a b = true)
    (hbc : charsLe b c = true) : charsLe a c = true := by
  induction a generalizing b c with
  | nil => rfl
  | cons x xs ih =>
      cases b with
      | nil => simp [charsLe] at hab
      | cons y ys =>
          cases c with
          | nil => simp [charsLe] at hbc
          | cons z zs =>
              by_cases h1 : x.toNat < y.toNat
              · by_cases h2 : y.toNat < z.toNat
                · rw [charsLe, if_pos (show x.toNat < z.toNat by omega)]
                · by_cases h4 : z.toNat < y.toNat
                  · rw [charsLe, if_neg h2, if_pos h4] at hbc
                    exact absurd hbc (by simp)
                  · rw [charsLe, if_pos (show x.toNat < z.toNat by omega)]
              · by_cases h3 : y.toNat < x.toNat
                · rw [charsLe, if_neg h1, if_pos h3] at hab
                  exact absurd hab (by simp)
                · rw [charsLe, if_neg h1, if_neg h3] at hab
                  by_cases h2 : y.toNat < z.toNat
                  · rw [charsLe, if_pos (show x.toNat < z.toNat by omega)]
                  · by_cases h4 : z.toNat < y.toNat
                    · rw [charsLe, if_neg h2, if_pos h4] at hbc
                      exact absurd hbc (by simp)
                    · rw [charsLe, if_neg h2, if_neg h4] at hbc
                      rw [charsLe, if_neg (show ¬x.toNat < z.toNat by omega),
                        if_neg (show ¬z.toNat < x.toNat by omega)]
                      exact ih ys zs hab hbc

theorem strLe_total (s t : String) : strLe s t = true ∨ strLe t s = true :=
  charsLe_total s.data t.data

theorem strLe_trans (s t u : String) (h1 : strLe s t = true)
    (h2 : strLe t u = true) : strLe s u = true :=
  charsLe_trans s.data t.data u.data h1 h2

theorem rat_min?_spec (l : List ℚ) (m : ℚ) (h : l.min? = some m) :
    m ∈ l ∧ ∀ x ∈ l, m ≤ x := by
  rw [@List.min?_eq_some_iff ℚ m _ _ ⟨fun h h' => le_antisymm h h'⟩
    (fun a => le_refl a) (fun a b => min_choice a b) (fun a b c => le_min_iff) l] at h
  exact h

theorem rat_max?_spec (l : List ℚ) (m : ℚ) (h : l.max? = some m) :
    m ∈ l ∧ ∀ x ∈ l, x ≤ m := by
  rw [@List.max?_eq_some_iff ℚ m _ _ ⟨fun h h' => le_antisymm h h'⟩
    (fun a => le_refl a) (fun a b => max_choice a b) (fun a b c => max_le_iff) l] at h
  exact h

/-! ## Claim C1 -/

/-- C1 (amended): the coordinator never raises and handles every task
independently — the diagnostics list holds exactly one entry per task, in
order, with `succeeded = false` and `detail` equal to the exception text
for a raising thunk (so the detail is non-empty whenever the exception's
text is), and the result map holds exactly the truthy results of the
non-raising thunks under their task names, so no task's failure disturbs
any other task. -/
theorem fetch_all_isolates_failures (tasks : List FetchTask) :
    (fetch_all tasks).2 = tasks.map (fun t =>
      match t.thunk with
      | .ok r => ⟨t.name, t.elapsed, !r.isEmptyish, none⟩
      | .error e => ⟨t.name, t.elapsed, false, some e⟩) ∧
    (fetch_all tasks).1 = tasks.filterMap (fun t =>
      match t.thunk with
      | .ok r => if r.truthy then some (t.name, r) else none
      | .error _ => none) := by
  induction tasks with
  | nil => exact ⟨rfl, rfl⟩
  | cons t ts ih =>
      obtain ⟨ih1, ih2⟩ := ih
      cases ht : t.thunk with
      | ok r =>
          constructor
          · simp [fetch_all, maybe_fetch, ht, ih1]
          · simp only [fetch_all, maybe_fetch, ht, List.filterMap_cons]
            by_cases hr : r.truthy = true
            · simp [hr, ih2]
            · simp only [Bool.not_eq_true] at hr
              simp [hr, ih2]
      | error e =>
          constructor
          · simp [fetch_all, maybe_fetch, ht, ih1]
          · simp [fetch_all, maybe_fetch, ht, ih2, Value.truthy]

/-- C1 counterexample: Python exceptions can carry an empty text (for
example `ValueError()` has `str(exc) == ""`); for such a task the recorded
diagnostic detail equals the exception text but is empty, contradicting the
claim's unconditionally non-empty error detail. -/
theorem fetch_all_empty_detail_cex :
    (fetch_all [⟨"task2", 0, Except.error ""⟩]).2 =
      [⟨"task2", 0, false, some ""⟩] ∧
    (fetch_all [⟨"task2", 0, Except.error ""⟩]).1 = [] ∧
    ("" : String).length = 0 :=
  ⟨rfl, rfl, rfl⟩

/-! ## Claim C5 -/

/-- C5: region statistics take each metric's min/max over exactly the
observations supplying that metric and are `None` when no observation does:
the empty list yields the all-`None` stats, each field equals the
`min`/`max` of the non-null values of its metric (so it is `None` exactly
when no observation supplies the metric), a single non-null temperature `t`
gives `tmin = tmax = t`, and `tmin`/`tmax` are a member of and a lower/upper
bound for the non-null temperatures. -/
theorem compute_region_stats_spec (observations : List Observation) :
    (observations = [] →
      compute_region_stats observations = ⟨none, none, none, none, none⟩) ∧
    (compute_region_stats observations).tmin = (observations.filterMap (·.temp)).min? ∧
    (compute_region_stats observations).tmax = (observations.filterMap (·.temp)).max? ∧
    (compute_region_stats observations).pop_max =
      (observations.filterMap (·.precip_prob)).max? ∧
    (compute_region_stats observations).wind_max =
      (observations.filterMap (·.wind)).max? ∧
    (compute_region_stats observations).gust_max =
      (observations.filterMap (·.gust)).max? ∧
    (∀ t, observations.filterMap (·.temp) = [t] →
      (compute_region_stats observations).tmin = some t ∧
      (compute_region_stats observations).tmax = some t) ∧
    (∀ m, (compute_region_stats observations).tmin = some m →
      m ∈ observations.filterMap (·.temp) ∧
      ∀ x ∈ observations.filterMap (·.temp), m ≤ x) ∧
    (∀ m, (compute_region_stats observations).tmax = some m →
      m ∈ observations.filterMap (·.temp) ∧
      ∀ x ∈ observations.filterMap (·.temp), x ≤ m) := by
  have hfields :
      (compute_region_stats observations).tmin = (observations.filterMap (·.temp)).min? ∧
      (compute_region_stats observations).tmax = (observations.filterMap (·.temp)).max? ∧
      (compute_region_stats observations).pop_max =
        (observations.filterMap (·.precip_prob)).max? ∧
      (compute_region_stats observations).wind_max =
        (observations.filterMap (·.wind)).max? ∧
      (compute_region_stats observations).gust_max =
        (observations.filterMap (·.gust)).max? := by
    cases observations with
    | nil => simp [compute_region_stats]
    | cons o os => simp [compute_region_stats]
  obtain ⟨h1, h2, h3, h4, h5⟩ := hfields
  refine ⟨?_, h1, h2, h3, h4, h5, ?_, ?_, ?_⟩
  · rintro rfl
    simp [compute_region_stats]
  · intro t ht
    rw [h1, h2, ht]
    simp
  · intro m hm
    exact rat_min?_spec _ m (h1 ▸ hm)
  · intro m hm
    exact rat_max?_spec _ m (h2 ▸ hm)

/-- C5 witness: the empty list yields all-`None` stats, and a list whose
only non-null temperature is `5` yields `tmin = tmax = 5`. -/
theorem compute_region_stats_spec_witness :
    compute_region_stats [] = ⟨none, none, none, none, none⟩ ∧
    (compute_region_stats [⟨0, 0, some 5, none, none, none, none, none⟩,
      ⟨1, 1, none, none, none, none, none, none⟩]).tmin = some 5 ∧
    (compute_region_stats [⟨0, 0, some 5, none, none, none, none, none⟩,
      ⟨1, 1, none, none, none, none, none, none⟩]).tmax = some 5 := by
  refine ⟨(compute_region_stats_spec []).1 rfl, ?_, ?_⟩
  · exact ((compute_region_stats_spec _).2.2.2.2.2.2.1 5 (by rfl)).1
  · exact ((compute_region_stats_spec _).2.2.2.2.2.2.1 5 (by rfl)).2

/-! ## Claim C6 -/

theorem lookup_insertAlertGroup (a : Alert) (groups : List (String × Nat × List String))
    (e : String) :
    (insertAlertGroup a groups).lookup e =
      (if e = a.event then
        match groups.lookup e with
        | some p => some (p.1 + 1, p.2 ++ a.areas.take 2)
        | none => some (1, a.areas.take 2)
      else groups.lookup e) := by
  induction groups with
  | nil =>
      by_cases h : e = a.event
      · have hb : (e == a.event) = true := by simpa using h
        simp [insertAlertGroup, List.lookup, hb, h]
      · have hb : (e == a.event) = false := by simpa using h
        simp [insertAlertGroup, List.lookup, hb, h]
  | cons g gs ih =>
      obtain ⟨gev, gc, gar⟩ := g
      simp only [insertAlertGroup]
      by_cases hg : gev = a.event
      · rw [if_pos hg]
        subst hg
        by_cases h : e = a.event
        · have hb : (e == a.event) = true := by simpa using h
          simp [List.lookup, hb, h]
        · have hb : (e == a.event) = false := by simpa using h
          simp [List.lookup, hb, h]
      · rw [if_neg hg]
        by_cases h : e = gev
        · subst h
          have hne : ¬e = a.event := hg
          have hb : (e == e) = true := by simp
          simp [List.lookup, hb, hne]
        · have hb : (e == gev) = false := by simpa using h
          simp [List.lookup, hb, ih]

theorem keys_insertAlertGroup (a : Alert) (groups : List (String × Nat × List String)) :
    (insertAlertGroup a groups).map Prod.fst =
      (if a.event ∈ groups.map Prod.fst then groups.map Prod.fst
       else groups.map Prod.fst ++ [a.event]) := by
  induction groups with
  | nil => simp [insertAlertGroup]
  | cons g gs ih =>
      obtain ⟨ge, gc, gar⟩ := g
      simp only [insertAlertGroup]
      by_cases hg : ge = a.event
      · rw [if_pos hg]
        simp [hg]
      · rw [if_neg hg]
        simp only [List.map_cons, ih]
        by_cases hmem : a.event ∈ gs.map Prod.fst
        · simp [hmem, Ne.symm hg]
        · simp [hmem, Ne.symm hg]

theorem nodup_keys_insertAlertGroup (a : Alert)
    (groups : List (String × Nat × List String))
    (h : (groups.map Prod.fst).Nodup) :
    ((insertAlertGroup a groups).map Prod.fst).Nodup := by
  rw [keys_insertAlertGroup]
  by_cases hmem : a.event ∈ groups.map Prod.fst
  · rwa [if_pos hmem]
  · rw [if_neg hmem]
    simp [List.nodup_append, h, hmem]

theorem nodup_keys_foldl_insert (l : List Alert) :
    ∀ acc : List (String × Nat × List String), (acc.map Prod.fst).Nodup →
    (((l.foldl (fun groups a => insertAlertGroup a groups) acc)).map Prod.fst).Nodup := by
  induction l with
  | nil => intro acc h; exact h
  | cons a l ih =>
      intro acc h
      exact ih (insertAlertGroup a acc) (nodup_keys_insertAlertGroup a acc h)

theorem nodup_keys_group_alerts (alerts : List Alert) :
    ((group_alerts alerts).map Prod.fst).Nodup :=
  nodup_keys_foldl_insert alerts [] List.Pairwise.nil

theorem lookup_eq_of_mem {β : Type} (l : List (String × β))
    (hnd : (l.map Prod.fst).Nodup) (g : String × β) (hg : g ∈ l) :
    l.lookup g.1 = some g.2 := by
  induction l with
  | nil => cases hg
  | cons x xs ih =>
      rcases List.mem_cons.mp hg with rfl | hmem
      · simp [List.lookup]
      · have hx : g.1 ≠ x.1 := by
          intro hc
          apply (List.nodup_cons.mp hnd).1
          rw [← hc]
          exact List.mem_map_of_mem Prod.fst hmem
        simp only [List.lookup]
        rw [show (g.1 == x.1) = false by simpa using hx]
        exact ih (List.nodup_cons.mp hnd).2 hmem

theorem lookup_foldl_insert (l : List Alert) :
    ∀ (acc : List (String × Nat × List String)) (e : String),
    ((l.foldl (fun groups a => insertAlertGroup a groups) acc).lookup e) =
      (match acc.lookup e with
      | some p => some (p.1 + l.countP (fun a => a.event == e), p.2 ++ areas_pool l e)
      | none =>
          if l.countP (fun a => a.event == e) = 0 then none
          else some (l.countP (fun a => a.event == e), areas_pool l e)) := by
  induction l with
  | nil =>
      intro acc e
      cases hacc : acc.lookup e <;> simp [hacc, areas_pool]
  | cons a l ih =>
      intro acc e
      rw [List.foldl_cons, ih, lookup_insertAlertGroup]
      by_cases h : e = a.event
      · have hcount : (a :: l).countP (fun x => x.event == e) =
            l.countP (fun x => x.event == e) + 1 := by
          simp [List.countP_cons, h]
        have hpool : areas_pool (a :: l) e = a.areas.take 2 ++ areas_pool l e := by
          simp [areas_pool, List.filter_cons, h]
        rw [if_pos h, hcount, hpool]
        cases hacc : acc.lookup e with
        | some p =>
            simp only [hacc]
            have : p.1 + 1 + l.countP (fun x => x.event == e) =
                p.1 + (l.countP (fun x => x.event == e) + 1) := by omega
            simp [this]
        | none =>
            simp only [hacc]
            have h0 : l.countP (fun x => x.event == e) + 1 ≠ 0 := by omega
            have : 1 + l.countP (fun x => x.event == e) =
                l.countP (fun x => x.event == e) + 1 := by omega
            simp [h0, this]
      · have hcount : (a :: l).countP (fun x => x.event == e) =
            l.countP (fun x => x.event == e) := by
          have : (a.event == e) = false := by
            simpa using fun hc => h hc.symm
          simp [List.countP_cons, this]
        have hpool : areas_pool (a :: l) e = areas_pool l e := by
          have : (a.event == e) = false := by
            simpa using fun hc => h hc.symm
          simp [areas_pool, List.filter_cons, this]
        rw [if_neg h, hcount, hpool]

theorem mem_summarize_alerts (alerts : List Alert) (g : AlertGroup)
    (hg : g ∈ summarize_alerts alerts) :
    ∃ p ∈ group_alerts alerts, g = ⟨p.1, p.2.1, (sortedSet p.2.2).take 5⟩ := by
  unfold summarize_alerts at hg
  by_cases he : alerts.isEmpty
  · simp [he] at hg
  · rw [if_neg he] at hg
    have hg1 := (List.take_sublist 5 _).subset hg
    have hg2 := (mem_sortBy _ _ g).mp hg1
    rcases List.mem_map.mp hg2 with ⟨p, hp, rfl⟩
    exact ⟨p, hp, rfl⟩

/-- C6 counterexample: an alert with three affected areas — the summarised
entry keeps only the first two (`alert.areas[:2]` at
src/wx/orchestrator.py:822), not the full union capped at five, so area
`"c"` is dropped although the cap of 5 is not reached. -/
theorem summarize_alerts_areas_cex :
    summarize_alerts [⟨"Storm", "Severe", ["a", "b", "c"], none⟩] =
      [⟨"Storm", 1, ["a", "b"]⟩] ∧
    "c" ∉ (["a", "b"] : List String) ∧
    "c" ∈ (["a", "b", "c"] : List String) ∧
    (["a", "b", "c"] : List String).length ≤ 5 := by
  refine ⟨by decide, by decide, by decide, by decide⟩

/-- C6 (amended): alert summarisation groups alerts by exact event name
(case-preserving) and returns at most 5 entries sorted by descending count;
each entry's count equals the number of input alerts whose event name
equals that entry's event exactly, and each entry's areas list is the
deduplicated, lexicographically sorted union of the first two affected
areas of each such alert, capped at 5 per event. -/
theorem summarize_alerts_spec (alerts : List Alert) :
    (summarize_alerts alerts).length ≤ 5 ∧
    (summarize_alerts alerts).Pairwise (fun a b => b.count ≤ a.count) ∧
    ∀ g ∈ summarize_alerts alerts,
      g.count = alerts.countP (fun a => a.event == g.event) ∧
      g.areas = (sortedSet (areas_pool alerts g.event)).take 5 := by
  refine ⟨?_, ?_, ?_⟩
  · unfold summarize_alerts
    by_cases he : alerts.isEmpty
    · simp [he]
    · rw [if_neg he]
      exact List.length_take_le 5 _
  · unfold summarize_alerts
    by_cases he : alerts.isEmpty
    · simp [he]
    · rw [if_neg he]
      have hs := sortBy_pairwise (fun (a b : AlertGroup) => decide (b.count ≤ a.count))
        (fun a b c h1 h2 => by
          simp only [decide_eq_true_eq] at h1 h2 ⊢
          omega)
        (fun a b => by
          rcases Nat.le_total b.count a.count with h | h
          · exact Or.inl (by simpa using h)
          · exact Or.inr (by simpa using h))
        ((group_alerts alerts).map fun p => AlertGroup.mk p.1 p.2.1 ((sortedSet p.2.2).take 5))
      have := hs.sublist (List.take_sublist 5 _)
      exact this.imp fun h => by simpa using h
  · intro g hg
    rcases mem_summarize_alerts alerts g hg with ⟨p, hp, rfl⟩
    have hlk := lookup_eq_of_mem (group_alerts alerts)
      (nodup_keys_group_alerts alerts) p hp
    rw [show group_alerts alerts =
      alerts.foldl (fun groups a => insertAlertGroup a groups) [] from rfl,
      lookup_foldl_insert alerts [] p.1] at hlk
    simp only [List.lookup] at hlk
    by_cases h0 : alerts.countP (fun a => a.event == p.1) = 0
    · rw [if_pos h0] at hlk
      cases hlk
    · rw [if_neg h0] at hlk
      have hp2 : p.2 = (alerts.countP (fun a => a.event == p.1),
          areas_pool alerts p.1) := by
        exact (Option.some.injEq _ _).mp hlk.symm
      constructor
      · show p.2.1 = _
        rw [hp2]
      · show (sortedSet p.2.2).take 5 = _
        rw [hp2]

/-- C6 witness: a feed with two "Heat Advisory" alerts and one "Wind
Warning" — the "Heat Advisory" entry counts 2 and carries the sorted union
of the first two areas of each matching alert. -/
theorem summarize_alerts_spec_witness :
    ((AlertGroup.mk "Heat Advisory" 2 ["AZ", "NM", "TX"]).count =
      ([⟨"Heat Advisory", "Severe", ["TX", "AZ"], none⟩,
        ⟨"Wind Warning", "Moderate", ["UK"], none⟩,
        ⟨"Heat Advisory", "Severe", ["NM"], none⟩] : List Alert).countP
        (fun a => a.event == (AlertGroup.mk "Heat Advisory" 2 ["AZ", "NM", "TX"]).event)) ∧
    ((AlertGroup.mk "Heat Advisory" 2 ["AZ", "NM", "TX"]).areas =
      (sortedSet (areas_pool
        [⟨"Heat Advisory", "Severe", ["TX", "AZ"], none⟩,
         ⟨"Wind Warning", "Moderate", ["UK"], none⟩,
         ⟨"Heat Advisory", "Severe", ["NM"], none⟩]
        (AlertGroup.mk "Heat Advisory" 2 ["AZ", "NM", "TX"]).event)).take 5) :=
  (summarize_alerts_spec
    [⟨"Heat Advisory", "Severe", ["TX", "AZ"], none⟩,
     ⟨"Wind Warning", "Moderate", ["UK"], none⟩,
     ⟨"Heat Advisory", "Severe", ["NM"], none⟩]).2.2
    ⟨"Heat Advisory", 2, ["AZ", "NM", "TX"]⟩ (by decide)

/-! ## Claim C7 -/

theorem run_attempts_retry_http (cfg : OpenRouterConfig)
    (outcomes : Nat → AttemptOutcome) (attempt : Nat) (b : ℚ) (ls : Option Nat)
    (s : Nat) (hs : s ∈ RETRYABLE_STATUS_CODES) (hlt : attempt < cfg.retries)
    (ho : outcomes attempt = .httpError s) :
    run_attempts cfg outcomes attempt b ls =
      ((run_attempts cfg outcomes (attempt + 1) (b * 2) (some s)).1,
        b :: (run_attempts cfg outcomes (attempt + 1) (b * 2) (some s)).2) := by
  rw [run_attempts.eq_def, if_neg (by omega), ho]
  simp only []
  rw [if_pos ⟨hs, hlt⟩]

theorem run_attempts_retry_transport (cfg : OpenRouterConfig)
    (outcomes : Nat → AttemptOutcome) (attempt : Nat) (b : ℚ) (ls : Option Nat)
    (hlt : attempt < cfg.retries) (ho : outcomes attempt = .transportError) :
    run_attempts cfg outcomes attempt b ls =
      ((run_attempts cfg outcomes (attempt + 1) (b * 2) ls).1,
        b :: (run_attempts cfg outcomes (attempt + 1) (b * 2) ls).2) := by
  rw [run_attempts.eq_def, if_neg (by omega), ho]
  simp only []
  rw [if_pos hlt]

theorem run_attempts_http_raise (cfg : OpenRouterConfig)
    (outcomes : Nat → AttemptOutcome) (attempt : Nat) (b : ℚ) (ls : Option Nat)
    (s : Nat) (hle : attempt ≤ cfg.retries) (ho : outcomes attempt = .httpError s)
    (hno : ¬(s ∈ RETRYABLE_STATUS_CODES ∧ attempt < cfg.retries)) :
    run_attempts cfg outcomes attempt b ls =
      (.error ⟨"OpenRouter HTTP " ++ toString s, some s⟩, []) := by
  rw [run_attempts.eq_def, if_neg (by omega), ho]
  simp only []
  rw [if_neg hno]

/-- C7: the HTTP call retries on 429/500/502/503/504 and on transport
timeouts, sleeping the current backoff and doubling it, for at most the
configured 3 attempts (which is what `_build_openrouter_config` always
configures, together with the 0.75 s starting backoff); three 429s in a row
exhaust the budget after exactly the sleeps 0.75 s and 1.5 s; a 401 or 403
on the first attempt raises immediately with no retry and no sleep. -/
theorem chat_completion_retry_policy :
    (∀ (cfg : OpenRouterConfig) (outcomes : Nat → AttemptOutcome) attempt b ls s,
      s ∈ RETRYABLE_STATUS_CODES → attempt < cfg.retries →
      outcomes attempt = .httpError s →
      run_attempts cfg outcomes attempt b ls =
        ((run_attempts cfg outcomes (attempt + 1) (b * 2) (some s)).1,
         b :: (run_attempts cfg outcomes (attempt + 1) (b * 2) (some s)).2)) ∧
    (∀ (cfg : OpenRouterConfig) (outcomes : Nat → AttemptOutcome) attempt b ls,
      attempt < cfg.retries → outcomes attempt = .transportError →
      run_attempts cfg outcomes attempt b ls =
        ((run_attempts cfg outcomes (attempt + 1) (b * 2) ls).1,
         b :: (run_attempts cfg outcomes (attempt + 1) (b * 2) ls).2)) ∧
    (∀ (s : ForecasterSettings) (c : OpenRouterConfig),
      build_openrouter_config s = some c →
      c.retries = 3 ∧ c.backoff_factor = 3 / 4) ∧
    (∀ (cfg : OpenRouterConfig) (outcomes : Nat → AttemptOutcome) msgs,
      cfg.retries = 3 → cfg.backoff_factor = 3 / 4 →
      (∀ n, outcomes n = .httpError 429) →
      chat_completion msgs cfg outcomes =
        (.error ⟨"OpenRouter HTTP 429", some 429⟩, [3 / 4, 3 / 2])) ∧
    (∀ (cfg : OpenRouterConfig) (outcomes : Nat → AttemptOutcome) msgs s,
      cfg.retries = 3 → (s = 401 ∨ s = 403) → outcomes 1 = .httpError s →
      chat_completion msgs cfg outcomes =
        (.error ⟨"OpenRouter HTTP " ++ toString s, some s⟩, [])) := by
  refine ⟨run_attempts_retry_http, run_attempts_retry_transport, ?_, ?_, ?_⟩
  · intro s c hc
    by_cases hk : s.openrouter_api_key = ""
    · simp [build_openrouter_config, hk] at hc
    · simp only [build_openrouter_config, if_neg hk, Option.some.injEq] at hc
      rw [← hc]
      exact ⟨rfl, rfl⟩
  · intro cfg outcomes msgs hr hb ho
    unfold chat_completion
    rw [hb]
    rw [run_attempts_retry_http cfg outcomes 1 (3 / 4) none 429 (by decide)
      (by omega) (ho 1)]
    rw [run_attempts_retry_http cfg outcomes 2 (3 / 4 * 2) (some 429) 429 (by decide)
      (by omega) (ho 2)]
    rw [run_attempts_http_raise cfg outcomes 3 (3 / 4 * 2 * 2) (some 429) 429
      (by omega) (ho 3) (by rw [hr]; intro hand; omega)]
    norm_num
    rfl
  · intro cfg outcomes msgs s hr hs ho
    unfold chat_completion
    refine run_attempts_http_raise cfg outcomes 1 cfg.backoff_factor none s
      (by omega) ho ?_
    rcases hs with rfl | rfl
    · rintro ⟨hmem, -⟩
      revert hmem
      decide
    · rintro ⟨hmem, -⟩
      revert hmem
      decide

/-- C7 witness: with the retry budget 3 and starting backoff 0.75 as built,
three consecutive 429s end in an error after sleeping 0.75 s then 1.5 s,
while an immediate 401 errors with no sleep at all. -/
theorem chat_completion_retry_policy_witness :
    chat_completion [] ⟨"key", "https://openrouter.ai/api/v1", "openrouter/auto",
        0, 256, 30, 3, 3 / 4⟩ (fun _ => .httpError 429) =
      (.error ⟨"OpenRouter HTTP 429", some 429⟩, [3 / 4, 3 / 2]) ∧
    chat_completion [] ⟨"key", "https://openrouter.ai/api/v1", "openrouter/auto",
        0, 256, 30, 3, 3 / 4⟩ (fun _ => .httpError 401) =
      (.error ⟨"OpenRouter HTTP 401", some 401⟩, []) :=
  ⟨chat_completion_retry_policy.2.2.2.1 _ _ [] rfl rfl (fun _ => rfl),
   chat_completion_retry_policy.2.2.2.2 _ _ [] 401 rfl (Or.inl rfl) rfl⟩

/-! ## Claims C2 and C3 -/

theorem startsChars_append (l r : List Char) : startsChars l (l ++ r) = true := by
  induction l with
  | nil => rfl
  | cons c cs ih => simp [startsChars, ih]

theorem pyStartsWith_append (p r : String) : pyStartsWith p (p ++ r) = true := by
  unfold pyStartsWith
  rw [String.data_append]
  exact startsChars_append p.data r.data

/-- C3: with the global offline setting on, `generate` answers with the
deterministic fallback — provider `"offline"`, confidence value 25 — and
never consults the provider oracles (the result is the same for any
network/parse oracle), whatever the feature pack, query, intent or
verbosity. -/
theorem generate_offline_deterministic (s : ForecasterSettings)
    (jsonLoads : String → Option Value) (outcomes : Nat → AttemptOutcome)
    (gemini : Except String (Option String)) (query : String)
    (feature_pack : List (String × Value)) (intent : String)
    (verbose explain : Bool) (hoff : s.offline = true) :
    (generate s jsonLoads outcomes gemini query feature_pack intent
      verbose explain).provider = "offline" ∧
    (generate s jsonLoads outcomes gemini query feature_pack intent
      verbose explain).confidence.getKey "value" = some (Value.num 25) ∧
    ∀ (jsonLoads' : String → Option Value) (outcomes' : Nat → AttemptOutcome)
      (gemini' : Except String (Option String)),
      generate s jsonLoads outcomes gemini query feature_pack intent verbose explain =
      generate s jsonLoads' outcomes' gemini' query feature_pack intent verbose explain := by
  unfold generate
  rw [hoff]
  exact ⟨rfl, rfl, fun _ _ _ => rfl⟩

/-- C3 witness: a concrete offline configuration with a non-trivial feature
pack produces provider `"offline"` and confidence value 25. -/
theorem generate_offline_deterministic_witness :
    (generate ⟨true, "concise", "default", "", [], "", 0, 256, "", "gemini-2.0-flash-exp"⟩
      (fun _ => none) (fun _ => .transportError) (.ok none) "rain tomorrow?"
      [("units", unit_pack "metric")] "question" false false).provider = "offline" ∧
    (generate ⟨true, "concise", "default", "", [], "", 0, 256, "", "gemini-2.0-flash-exp"⟩
      (fun _ => none) (fun _ => .transportError) (.ok none) "rain tomorrow?"
      [("units", unit_pack "metric")] "question" false false).confidence.getKey "value" =
      some (Value.num 25) := by
  have h := generate_offline_deterministic
    ⟨true, "concise", "default", "", [], "", 0, 256, "", "gemini-2.0-flash-exp"⟩
    (fun _ => none) (fun _ => .transportError) (.ok none) "rain tomorrow?"
    [("units", unit_pack "metric")] "question" false false rfl
  exact ⟨h.1, h.2.1⟩

/-- C2: whenever the provider chain raises — in particular when no provider
is configured, or when the primary exhausts its 3-attempt retry budget on
HTTP 429 and no Gemini key is set — `generate` returns (it is total, never
raising) the deterministic fallback: its provider is
`"fallback:"` followed by the exception's class name, hence starts with
`"fallback:"`, and its bottom line is the fixed fallback sentence. -/
theorem generate_all_providers_failed (s : ForecasterSettings)
    (jsonLoads : String → Option Value) (outcomes : Nat → AttemptOutcome)
    (gemini : Except String (Option String)) (query : String)
    (feature_pack : List (String × Value)) (intent : String)
    (verbose explain : Bool) :
    (∀ e : Exc, s.offline = false →
      invoke_provider (build_openrouter_config s) outcomes
        (s.gemini_api_key ≠ "") gemini s.gemini_model = .error e →
      (generate s jsonLoads outcomes gemini query feature_pack intent
        verbose explain).provider = "fallback:" ++ e.className ∧
      pyStartsWith "fallback:" (generate s jsonLoads outcomes gemini query
        feature_pack intent verbose explain).provider = true ∧
      (generate s jsonLoads outcomes gemini query feature_pack intent
        verbose explain).bottom_line = Value.str FALLBACK_BOTTOM_LINE) ∧
    (s.offline = false → s.openrouter_api_key ≠ "" → s.gemini_api_key = "" →
      (∀ n, outcomes n = .httpError 429) →
      (generate s jsonLoads outcomes gemini query feature_pack intent
        verbose explain).provider = "fallback:RuntimeError" ∧
      pyStartsWith "fallback:" (generate s jsonLoads outcomes gemini query
        feature_pack intent verbose explain).provider = true ∧
      (generate s jsonLoads outcomes gemini query feature_pack intent
        verbose explain).bottom_line = Value.str FALLBACK_BOTTOM_LINE) := by
  have main : ∀ e : Exc, s.offline = false →
      invoke_provider (build_openrouter_config s) outcomes
        (s.gemini_api_key ≠ "") gemini s.gemini_model = .error e →
      (generate s jsonLoads outcomes gemini query feature_pack intent
        verbose explain).provider = "fallback:" ++ e.className ∧
      pyStartsWith "fallback:" (generate s jsonLoads outcomes gemini query
        feature_pack intent verbose explain).provider = true ∧
      (generate s jsonLoads outcomes gemini query feature_pack intent
        verbose explain).bottom_line = Value.str FALLBACK_BOTTOM_LINE := by
    intro e hoff hinv
    have hgen : generate s jsonLoads outcomes gemini query feature_pack intent
        verbose explain = fallback_response
          ⟨intent, s.style, s.persona, verbose, explain, feature_pack, query⟩
          ("fallback:" ++ e.className)
          (compose_prompt_summary query intent verbose explain)
          (some e.message) (some (Value.dict [("error", Value.str e.message)])) := by
      unfold generate
      rw [hoff]
      simp only [Bool.false_eq_true, if_false]
      rw [hinv]
    rw [hgen]
    exact ⟨rfl, pyStartsWith_append "fallback:" e.className, rfl⟩
  refine ⟨main, ?_⟩
  intro hoff hk hg ho
  have hcfg : build_openrouter_config s = some ⟨s.openrouter_api_key,
      (if s.openrouter_base_url = "" then DEFAULT_OPENROUTER_BASE_URL
        else s.openrouter_base_url),
      ((if s.openrouter_models.isEmpty then DEFAULT_OPENROUTER_MODELS
        else s.openrouter_models).headD ""),
      s.ai_temperature, s.ai_max_tokens, 30, 3, 3 / 4⟩ := by
    simp [build_openrouter_config, hk]
  set c : OpenRouterConfig := ⟨s.openrouter_api_key,
      (if s.openrouter_base_url = "" then DEFAULT_OPENROUTER_BASE_URL
        else s.openrouter_base_url),
      ((if s.openrouter_models.isEmpty then DEFAULT_OPENROUTER_MODELS
        else s.openrouter_models).headD ""),
      s.ai_temperature, s.ai_max_tokens, 30, 3, 3 / 4⟩ with hc
  have hr3 : c.retries = 3 := rfl
  have hrun : (run_attempts c outcomes 1 c.backoff_factor none).1 =
      .error ⟨"OpenRouter HTTP 429", some 429⟩ := by
    rw [run_attempts_retry_http c outcomes 1 c.backoff_factor none 429 (by decide)
      (by omega) (ho 1)]
    rw [run_attempts_retry_http c outcomes 2 (c.backoff_factor * 2) (some 429) 429
      (by decide) (by omega) (ho 2)]
    rw [run_attempts_http_raise c outcomes 3 (c.backoff_factor * 2 * 2) (some 429) 429
      (by omega) (ho 3) (by intro hand; omega)]
    rfl
  have hchat : (chat_completion [] c outcomes).1 =
      .error ⟨"OpenRouter HTTP 429", some 429⟩ := hrun
  have hinv : invoke_provider (build_openrouter_config s) outcomes
      (s.gemini_api_key ≠ "") gemini s.gemini_model =
      .error ⟨"RuntimeError", "openrouter:OpenRouter HTTP 429"⟩ := by
    rw [hcfg]
    simp only [invoke_provider]
    rw [hchat]
    have hgb : (decide ¬(s.gemini_api_key = "")) = false := by
      simp [hg]
    simp only [invoke_gemini]
    rw [hgb]
    rfl
  have h := main ⟨"RuntimeError", "openrouter:OpenRouter HTTP 429"⟩ hoff hinv
  exact ⟨h.1, h.2.1, h.2.2⟩

/-- C2 witness: offline disabled, an OpenRouter key configured, no Gemini
key, and three straight 429s — the result is the fixed fallback sentence
under provider `"fallback:RuntimeError"`. -/
theorem generate_all_providers_failed_witness :
    (generate ⟨false, "concise", "default", "sk-or-key", [], "", 0, 256, "", "g"⟩
      (fun _ => none) (fun _ => .httpError 429) (.ok none) "forecast"
      [] "forecast" false false).provider = "fallback:RuntimeError" ∧
    (generate ⟨false, "concise", "default", "sk-or-key", [], "", 0, 256, "", "g"⟩
      (fun _ => none) (fun _ => .httpError 429) (.ok none) "forecast"
      [] "forecast" false false).bottom_line = Value.str FALLBACK_BOTTOM_LINE := by
  have h := (generate_all_providers_failed
    ⟨false, "concise", "default", "sk-or-key", [], "", 0, 256, "", "g"⟩
    (fun _ => none) (fun _ => .httpError 429) (.ok none) "forecast"
    [] "forecast" false false).2 rfl (by simp) rfl (fun _ => rfl)
  exact ⟨h.1, h.2.2⟩

/-! ## Claim C9 -/

theorem mem_sortedSet (l : List String) (x : String) : x ∈ sortedSet l ↔ x ∈ l := by
  unfold sortedSet
  rw [mem_sortBy]
  exact List.mem_dedup

theorem sortedSet_pairwise_lt (l : List String) :
    (sortedSet l).Pairwise (fun a b => strLt a b = true) := by
  have hle : (sortedSet l).Pairwise (fun a b => strLe a b = true) :=
    sortBy_pairwise strLe strLe_trans strLe_total l.dedup
  have hnd : (sortedSet l).Nodup :=
    (sortBy_perm strLe l.dedup).symm.nodup (List.nodup_dedup l)
  refine (hle.and hnd).imp ?_
  rintro a b ⟨h1, h2⟩
  unfold strLt
  rw [h1]
  simpa using h2

theorem collect_entry_dict (k : String) (w : List (String × Value))
    (hne : (Value.dict w).isEmptyish = false) (hk : k ≠ "units") :
    collect_entry k (Value.dict w) = w.map fun kv => k ++ "." ++ kv.1 := by
  unfold collect_entry
  rw [if_neg (by simp [hne]), if_neg hk]

theorem collect_entry_nondict (k : String) (v : Value)
    (hne : v.isEmptyish = false) (hnd : ∀ w, v ≠ Value.dict w)
    (hk : k ≠ "units") : collect_entry k v = [k] := by
  unfold collect_entry
  rw [if_neg (by simp [hne]), if_neg hk]
  cases v with
  | dict w => exact absurd rfl (hnd w)
  | null => rfl
  | bool b => rfl
  | num q => rfl
  | str s => rfl
  | list xs => rfl

theorem collect_entry_units (v : Value) (hne : v.isEmptyish = false) :
    collect_entry "units" v = ["units"] := by
  unfold collect_entry
  rw [if_neg (by simp [hne]), if_pos rfl]

theorem mem_collect_dict (fp : List (String × Value)) (k : String)
    (w : List (String × Value)) (hmem : (k, Value.dict w) ∈ fp)
    (hne : (Value.dict w).isEmptyish = false) (hk : k ≠ "units")
    (kv : String × Value) (hkv : kv ∈ w) :
    (k ++ "." ++ kv.1) ∈ collect_feature_fields fp := by
  unfold collect_feature_fields
  rw [List.mem_flatMap]
  refine ⟨(k, Value.dict w), hmem, ?_⟩
  rw [collect_entry_dict k w hne hk]
  exact List.mem_map_of_mem _ hkv

theorem mem_collect_nondict (fp : List (String × Value)) (k : String) (v : Value)
    (hmem : (k, v) ∈ fp) (hne : v.isEmptyish = false)
    (hnd : ∀ w, v ≠ Value.dict w) (hk : k ≠ "units") :
    k ∈ collect_feature_fields fp := by
  unfold collect_feature_fields
  rw [List.mem_flatMap]
  refine ⟨(k, v), hmem, ?_⟩
  rw [collect_entry_nondict k v hne hnd hk]
  exact List.mem_singleton.mpr rfl

theorem mem_collect_units (fp : List (String × Value)) (v : Value)
    (hmem : ("units", v) ∈ fp) (hne : v.isEmptyish = false) :
    "units" ∈ collect_feature_fields fp := by
  unfold collect_feature_fields
  rw [List.mem_flatMap]
  refine ⟨("units", v), hmem, ?_⟩
  rw [collect_entry_units v hne]
  exact List.mem_singleton.mpr rfl

theorem collect_filter_eq (fp : List (String × Value)) :
    collect_feature_fields fp =
      collect_feature_fields (fp.filter (fun kv => !kv.2.isEmptyish)) := by
  unfold collect_feature_fields
  induction fp with
  | nil => rfl
  | cons p fp ih =>
      rw [List.filter_cons, List.flatMap_cons]
      by_cases h : p.2.isEmptyish = true
      · have hc : collect_entry p.1 p.2 = [] := by
          unfold collect_entry
          rw [if_pos h]
        rw [hc, show (!p.2.isEmptyish) = false by simp [h], ih]
        rfl
      · rw [show (!p.2.isEmptyish) = true by simp [h], if_pos rfl,
          List.flatMap_cons, ih]

/-- C9 counterexample: the enumerator special-cases the `"units"` key — a
dict-valued `"units"` section contributes the single name `"units"`, not one
`units.subkey` entry per inner key (src/wx/forecaster.py:377). -/
theorem enumerate_feature_fields_units_cex :
    enumerate_feature_fields [("units", Value.dict [("temp", Value.str "F")])] =
      ["units"] ∧
    "units.temp" ∉
      enumerate_feature_fields [("units", Value.dict [("temp", Value.str "F")])] ∧
    ("units", Value.dict [("temp", Value.str "F")]) ∈
      ([("units", Value.dict [("temp", Value.str "F")])] : List (String × Value)) :=
  ⟨by decide, by decide, List.mem_singleton.mpr rfl⟩

/-- C9 (amended): the field-usage enumerator skips every top-level key whose
value is `None`, the empty list or the empty map (filtering them away does
not change the output); apart from the `"units"` key — which contributes
the name `"units"` alone even when dict-valued — every remaining dict-valued
key contributes one `section.subkey` name per inner key and every remaining
non-dict key contributes its bare name; the output is strictly sorted (so
duplicate names are collapsed) and, the function being pure, any two runs on
the same pack yield the identical sequence. -/
theorem enumerate_feature_fields_spec (fp : List (String × Value)) :
    enumerate_feature_fields fp =
      enumerate_feature_fields (fp.filter (fun kv => !kv.2.isEmptyish)) ∧
    (enumerate_feature_fields fp).Pairwise (fun a b => strLt a b = true) ∧
    (∀ k w, (k, Value.dict w) ∈ fp → (Value.dict w).isEmptyish = false →
      k ≠ "units" →
      ∀ kv ∈ w, (k ++ "." ++ kv.1) ∈ enumerate_feature_fields fp) ∧
    (∀ k v, (k, v) ∈ fp → v.isEmptyish = false → (∀ w, v ≠ Value.dict w) →
      k ≠ "units" → k ∈ enumerate_feature_fields fp) ∧
    (∀ v, ("units", v) ∈ fp → v.isEmptyish = false →
      "units" ∈ enumerate_feature_fields fp) := by
  refine ⟨?_, sortedSet_pairwise_lt _, ?_, ?_, ?_⟩
  · unfold enumerate_feature_fields
    rw [collect_filter_eq]
  · intro k w hmem hne hk kv hkv
    exact (mem_sortedSet _ _).mpr (mem_collect_dict fp k w hmem hne hk kv hkv)
  · intro k v hmem hne hnd hk
    exact (mem_sortedSet _ _).mpr (mem_collect_nondict fp k v hmem hne hnd hk)
  · intro v hmem hne
    exact (mem_sortedSet _ _).mpr (mem_collect_units fp v hmem hne)

/-- C9 witness: a pack with an empty section (skipped), a dict-valued
`place` section (split into `place.lat`, `place.lon`) and a list-valued
section (bare name), enumerated into a strictly sorted list. -/
theorem enumerate_feature_fields_spec_witness :
    ("place", Value.dict [("lat", Value.num 1), ("lon", Value.num 2)]) ∈
      ([("alerts_quick", Value.list []),
        ("place", Value.dict [("lat", Value.num 1), ("lon", Value.num 2)])] :
        List (String × Value)) ∧
    ("place" ++ "." ++ "lat") ∈ enumerate_feature_fields
      [("alerts_quick", Value.list []),
       ("place", Value.dict [("lat", Value.num 1), ("lon", Value.num 2)])] := by
  refine ⟨List.mem_cons_of_mem _ (List.mem_singleton.mpr rfl), ?_⟩
  exact (enumerate_feature_fields_spec
    [("alerts_quick", Value.list []),
     ("place", Value.dict [("lat", Value.num 1), ("lon", Value.num 2)])]).2.2.1
    "place" [("lat", Value.num 1), ("lon", Value.num 2)]
    (List.mem_cons_of_mem _ (List.mem_singleton.mpr rfl)) rfl
    (by decide) ("lat", Value.num 1) (List.mem_cons_self _ _)

/-! ## Claim C10 -/

theorem or_default_falsy (o : Option Value) (d : Value)
    (h : ∀ v, o = some v → v.truthy = false) : or_default o d = d := by
  cases o with
  | none => rfl
  | some x => simp [or_default, h x rfl]

/-- C10: on any provider text whose cleaned form parses as a JSON object,
`_parse_response` returns normally (never raises) and fills defaults: a
missing-or-falsy `confidence` becomes the fixed 30-valued dict, a
missing-or-falsy `bottom_line` the fixed sentence, a missing-or-falsy
`sections` the empty map, and a non-list `used_feature_fields` the empty
list. -/
theorem parse_response_defaults (jsonLoads : String → Option Value)
    (raw_text prompt_summary provider : String) (meta : Option Value)
    (fields : List (String × Value))
    (hp : jsonLoads (clean_response_text raw_text) = some (Value.dict fields)) :
    ∃ resp : ForecasterResponse,
      parse_response jsonLoads raw_text prompt_summary provider meta = .ok resp ∧
      ((∀ v, fields.lookup "confidence" = some v → v.truthy = false) →
        resp.confidence = Value.dict [("value", Value.num 30),
          ("rationale", Value.str "Model confidence not supplied.")]) ∧
      ((∀ v, fields.lookup "bottom_line" = some v → v.truthy = false) →
        resp.bottom_line = Value.str "No bottom line provided.") ∧
      ((∀ v, fields.lookup "sections" = some v → v.truthy = false) →
        resp.sections = Value.dict []) ∧
      (∀ v, fields.lookup "used_feature_fields" = some v →
        (∀ xs, v ≠ Value.list xs) → resp.used_feature_fields = []) ∧
      (fields.lookup "used_feature_fields" = none →
        resp.used_feature_fields = []) := by
  unfold parse_response
  rw [hp]
  refine ⟨_, rfl, ?_, ?_, ?_, ?_, ?_⟩
  · intro h
    show or_default (fields.lookup "confidence") _ = _
    rw [or_default_falsy _ _ h]
  · intro h
    show or_default (fields.lookup "bottom_line") _ = _
    rw [or_default_falsy _ _ h]
  · intro h
    show or_default (fields.lookup "sections") _ = _
    rw [or_default_falsy _ _ h]
  · intro v hv hnl
    show (match or_default (fields.lookup "used_feature_fields")
      (Value.list []) with | Value.list xs => xs | _ => []) = []
    rw [hv]
    by_cases ht : v.truthy = true
    · rw [show or_default (some v) (Value.list []) = v by simp [or_default, ht]]
      cases v with
      | list xs => exact absurd rfl (hnl xs)
      | null => rfl
      | bool b => rfl
      | num q => rfl
      | str s => rfl
      | dict w => rfl
    · rw [show or_default (some v) (Value.list []) = Value.list [] by
        simp [or_default, ht]]
  · intro hv
    show (match or_default (fields.lookup "used_feature_fields")
      (Value.list []) with | Value.list xs => xs | _ => []) = []
    rw [hv]
    rfl

/-- C10 witness: the empty JSON object gets every default substituted. -/
theorem parse_response_defaults_witness :
    ∃ resp : ForecasterResponse,
      parse_response (fun _ => some (Value.dict [])) "x" "ps" "openrouter:m"
        none = .ok resp ∧
      resp.confidence = Value.dict [("value", Value.num 30),
        ("rationale", Value.str "Model confidence not supplied.")] ∧
      resp.bottom_line = Value.str "No bottom line provided." ∧
      resp.sections = Value.dict [] ∧
      resp.used_feature_fields = [] := by
  obtain ⟨resp, h1, h2, h3, h4, h5, h6⟩ := parse_response_defaults
    (fun _ => some (Value.dict [])) "x" "ps" "openrouter:m" none [] rfl
  refine ⟨resp, h1, h2 ?_, h3 ?_, h4 ?_, h6 rfl⟩
  all_goals intro v hv; exact absurd hv (by simp)

/-! ## Claims C4 and C8 -/

theorem truthy_unit_pack (u : String) : (unit_pack u).truthy = true := by
  unfold unit_pack
  split <;> rfl

theorem base_all (u : String) :
    (base_feature_pack u).all (fun kv => kv.2.truthy) = true := by
  simp [base_feature_pack, truthy_unit_pack]

theorem all_truthy_append (l : List (String × Value)) (k : String) (v : Value)
    (h : l.all (fun kv => kv.2.truthy) = true) (hv : v.truthy = true) :
    (l ++ [(k, v)]).all (fun kv => kv.2.truthy) = true := by
  simp [List.all_append, h, hv]

theorem all_truthy_append_guard (l : List (String × Value)) (k : String) (v : Value)
    (h : l.all (fun kv => kv.2.truthy) = true) :
    (if v.truthy then l ++ [(k, v)] else l).all (fun kv => kv.2.truthy) = true := by
  by_cases hv : v.truthy = true
  · rw [if_pos hv]
    exact all_truthy_append l k v h hv
  · rw [if_neg hv]
    exact h

theorem build_window_truthy (tenv : TimeEnv) (p : Value) (w h : String) :
    ∃ v, build_window tenv p w h = some v ∧ v.truthy = true :=
  ⟨_, rfl, rfl⟩

theorem window_guard_all (l : List (String × Value)) (tenv : TimeEnv) (p : Value)
    (w h : String) (hl : l.all (fun kv => kv.2.truthy) = true) :
    (match build_window tenv p w h with
      | some wv => if wv.truthy then l ++ [("window", wv)] else l
      | none => l).all (fun kv => kv.2.truthy) = true := by
  obtain ⟨wv, hw, hwt⟩ := build_window_truthy tenv p w h
  rw [hw]
  rw [show (match some wv with
      | some v => if v.truthy then l ++ [("window", v)] else l
      | none => l) = if wv.truthy then l ++ [("window", wv)] else l from rfl]
  exact all_truthy_append_guard l "window" wv hl

/-- C4: every feature pack built by the orchestrator's handlers — question,
forecast, risk, alerts and story — maps each present top-level key to a
truthy (hence non-null, non-empty) value, for every combination of adapter
outcomes, clock, flags and arguments; an unavailable source leaves its key
absent rather than null or empty. -/
theorem handler_packs_nonempty :
    (∀ u, (handle_question_pack u).all (fun kv => kv.2.truthy) = true) ∧
    (∀ u tt env tenv wt hz fc vb,
      (handle_forecast_pack u tt env tenv wt hz fc vb).all
        (fun kv => kv.2.truthy) = true) ∧
    (∀ u tt env haz,
      (handle_risk_pack u tt env haz).all (fun kv => kv.2.truthy) = true) ∧
    (∀ u env, (handle_alerts_pack u env).all (fun kv => kv.2.truthy) = true) ∧
    (∀ u tt env tenv wt hz,
      (handle_story_pack u tt env tenv wt hz).all (fun kv => kv.2.truthy) = true) := by
  refine ⟨?_, ?_, ?_, ?_, ?_⟩
  · intro u
    exact base_all u
  · intro u tt env tenv wt hz fc vb
    unfold handle_forecast_pack
    apply all_truthy_append
    · split
      · apply all_truthy_append_guard
        apply all_truthy_append_guard
        apply all_truthy_append_guard
        apply window_guard_all
        apply all_truthy_append_guard
        exact base_all u
      · apply window_guard_all
        apply all_truthy_append_guard
        exact base_all u
    · rfl
  · intro u tt env haz
    unfold handle_risk_pack
    dsimp only
    split
    · split
      · apply all_truthy_append_guard
        apply all_truthy_append_guard
        exact base_all u
      · apply all_truthy_append_guard
        exact base_all u
    · apply all_truthy_append
      · split
        · apply all_truthy_append_guard
          apply all_truthy_append_guard
          exact base_all u
        · apply all_truthy_append_guard
          exact base_all u
      · rfl
  · intro u env
    unfold handle_alerts_pack
    dsimp only
    apply all_truthy_append_guard
    apply all_truthy_append_guard
    exact base_all u
  · intro u tt env tenv wt hz
    unfold handle_story_pack
    dsimp only
    split
    · apply all_truthy_append_guard
      apply all_truthy_append_guard
      apply all_truthy_append_guard
      apply window_guard_all
      apply all_truthy_append_guard
      exact base_all u
    · apply window_guard_all
      apply all_truthy_append_guard
      exact base_all u

/-- C8 counterexample: with point-context resolution returning no result
(`get_point_context` gives `None`, e.g. in offline mode), the forecast
feature pack contains no `place` key but does contain a `window` key —
`_build_window` always returns a window built from the current time, and
`tests/test_orchestrator.py` asserts exactly this presence. -/
theorem forecast_pack_window_without_place_cex :
    (handle_forecast_pack "imperial" true
      ⟨.ok Value.null, .ok Value.null, .ok Value.null, .ok Value.null, 0, 0, 0, 0⟩
      ⟨0, fun _ => none, fun _ => "2026-01-01T00:00:00+00:00", fun _ => none⟩
      "" "12h" "" false).lookup "place" = none ∧
    ((handle_forecast_pack "imperial" true
      ⟨.ok Value.null, .ok Value.null, .ok Value.null, .ok Value.null, 0, 0, 0, 0⟩
      ⟨0, fun _ => none, fun _ => "2026-01-01T00:00:00+00:00", fun _ => none⟩
      "" "12h" "" false).lookup "window").isSome = true := by
  constructor
  · rfl
  · rfl

theorem lookup_isSome_append {β : Type} (l1 l2 : List (String × β)) (k : String)
    (h : (l1.lookup k).isSome = true) : ((l1 ++ l2).lookup k).isSome = true := by
  induction l1 with
  | nil => simp [List.lookup] at h
  | cons x xs ih =>
      obtain ⟨a, b⟩ := x
      simp only [List.lookup, List.cons_append] at h ⊢
      by_cases hk : (k == a) = true
      · rw [hk]
        rfl
      · rw [show (k == a) = false by simpa using hk] at h ⊢
        exact ih h

theorem lookup_isSome_guard {β : Type} (l : List (String × β)) (k k2 : String)
    (v2 : β) (c : Bool) (h : (l.lookup k).isSome = true) :
    ((if c = true then l ++ [(k2, v2)] else l).lookup k).isSome = true := by
  by_cases hc : c = true
  · rw [if_pos hc]
    exact lookup_isSome_append l [(k2, v2)] k h
  · rw [if_neg hc]
    exact h

/-- C8 (amended): the forecast and story builders add the `place` section
only if point-context resolution yielded a truthy result — when it does
not, the pack has no `place` key — but the `window` section is always
added: `_build_window` unconditionally builds a window from the current
time, so the pack contains a `window` key even when resolution returned no
result. -/
theorem place_only_window_always (u : String) (tt : Bool) (env : FetchEnv)
    (tenv : TimeEnv) (wt hz fc : String) (vb : Bool) :
    ((maybe_fetch "point_context" env.t_point env.point_context [] []).1.truthy
        = false →
      (handle_forecast_pack u tt env tenv wt hz fc vb).lookup "place" = none ∧
      (handle_story_pack u tt env tenv wt hz).lookup "place" = none) ∧
    ((handle_forecast_pack u tt env tenv wt hz fc vb).lookup "window").isSome
      = true ∧
    ((handle_story_pack u tt env tenv wt hz).lookup "window").isSome = true := by
  obtain ⟨wv, hw, hwt⟩ := build_window_truthy tenv
    (maybe_fetch "point_context" env.t_point env.point_context [] []).1 wt hz
  refine ⟨?_, ?_, ?_⟩
  · intro hfalse
    constructor
    · unfold handle_forecast_pack
      dsimp only
      rw [hfalse, hw]
      simp only [Bool.false_and, Bool.false_eq_true, if_false, hwt, if_true]
      rfl
    · unfold handle_story_pack
      dsimp only
      rw [hfalse, hw]
      simp only [Bool.false_and, Bool.false_eq_true, if_false, hwt, if_true]
      rfl
  · unfold handle_forecast_pack
    dsimp only
    rw [hw]
    simp only [hwt, if_true]
    apply lookup_isSome_append
    split
    · apply lookup_isSome_guard
      apply lookup_isSome_guard
      apply lookup_isSome_guard
      split
      · rfl
      · rfl
    · split
      · rfl
      · rfl
  · unfold handle_story_pack
    dsimp only
    rw [hw]
    simp only [hwt, if_true]
    split
    · apply lookup_isSome_guard
      apply lookup_isSome_guard
      apply lookup_isSome_guard
      split
      · rfl
      · rfl
    · split
      · rfl
      · rfl

/-- C8 witness: failed resolution (`None` from the adapter) leaves no
`place` key while the `window` key is present. -/
theorem place_only_window_always_witness :
    (handle_forecast_pack "metric" false
      ⟨.ok Value.null, .ok Value.null, .ok Value.null, .ok Value.null, 0, 0, 0, 0⟩
      ⟨0, fun _ => none, fun _ => "t", fun _ => none⟩
      "" "6h" "" false).lookup "place" = none ∧
    ((handle_forecast_pack "metric" false
      ⟨.ok Value.null, .ok Value.null, .ok Value.null, .ok Value.null, 0, 0, 0, 0⟩
      ⟨0, fun _ => none, fun _ => "t", fun _ => none⟩
      "" "6h" "" false).lookup "window").isSome = true := by
  have h := place_only_window_always "metric" false
    ⟨.ok Value.null, .ok Value.null, .ok Value.null, .ok Value.null, 0, 0, 0, 0⟩
    ⟨0, fun _ => none, fun _ => "t", fun _ => none⟩ "" "6h" "" false
  exact ⟨(h.1 rfl).1, h.2.1⟩

end Wx
